import Mathlib

/-!
Verification of the readline abstraction in `vm/src/readline.rs`.

The module provides a `Readline` facade over two backends:
a minimal `basic_readline` backend (prompt to stdout, one line from stdin,
no history) and a `rustyline_readline` backend (interactive editor with
live, persisted history).  We embed the result taxonomy, both backends and
the facade, modelling the external environment (stdin stream, stdout trace,
filesystem, the third-party editor) explicitly.
-/

namespace RustPythonReadline

/-- Kinds of `std::io::Error`, as inspected by `e.kind()` in
`basic_readline::Readline::readline`.  Only `Interrupted` and `InvalidData`
are matched by name in the source; all remaining kinds fall into the
catch-all arm, represented here by `otherKind`. -/
inductive IOErrorKind where
  | interrupted
  | invalidData
  | notFound
  | otherKind (code : Nat)
deriving DecidableEq

/-- A `std::io::Error`: a kind plus an opaque payload (modelled as a
string), preserved unmodified when the error is wrapped in a result. -/
structure IOError where
  kind : IOErrorKind
  msg : String
deriving DecidableEq

/-- The error enum of the external `rustyline` crate, as matched by
`rustyline_readline::Readline::readline` (source lines 110-123).  The
source matches `Interrupted`, `Eof`, `Io(e)`, the platform-specific
decoding failures (`Utf8Error` under unix, `Decode(_)` under windows), and
a catch-all arm.  `errno` and `windowResized` stand for the remaining
variants that reach the catch-all arm. -/
inductive ReadlineError where
  | interrupted
  | eof
  | ioError (e : IOError)
  | utf8Error
  | decode (code : Nat)
  | errno (code : Nat)
  | windowResized
deriving DecidableEq

/-- `type OtherError = Box<dyn std::error::Error>`: an opaque boxed error.
The conversions that actually occur in the source are from the editor's
`ReadlineError` (via `?` and `e.into()`) and from `std::io::Error` (via
`?` on `create_dir_all`); both embeddings are lossless. -/
inductive OtherError where
  | fromReadlineError (e : ReadlineError)
  | fromIoError (e : IOError)
deriving DecidableEq

/-- `ReadlineResult`: the closed result taxonomy of a read attempt
(source lines 7-14).  `ioErr` embeds the `IO(std::io::Error)` variant. -/
inductive ReadlineResult where
  | line (s : String)
  | eof
  | interrupt
  | ioErr (e : IOError)
  | encodingError
  | other (e : OtherError)
deriving DecidableEq

/-- Observable events on the standard streams, used to state ordering
properties of the Basic Backend's `readline`. -/
inductive StdStreamEvent where
  | writeStdout (s : String)
  | flushStdout
  | readStdin
deriving DecidableEq

/-- The strings written to stdout in an event trace. -/
def writesOf (evs : List StdStreamEvent) : List String :=
  evs.filterMap fun e =>
    match e with
    | .writeStdout s => some s
    | _ => none

/-! ## Basic Backend (`basic_readline`) -/

/-- `basic_readline::Readline<H>`: holds only the helper value. -/
structure BasicReadline (H : Type) where
  helper : H

/-- `basic_readline::Readline::new`. -/
def BasicReadline.new {H : Type} (helper : H) : BasicReadline H :=
  ⟨helper⟩

/-- `basic_readline::Readline::load_history`: `Ok(())`, state untouched. -/
def BasicReadline.load_history {H : Type} (r : BasicReadline H)
    (_path : List String) : Except OtherError Unit × BasicReadline H :=
  (.ok (), r)

/-- `basic_readline::Readline::save_history`: `Ok(())`, state untouched. -/
def BasicReadline.save_history {H : Type} (r : BasicReadline H)
    (_path : List String) : Except OtherError Unit × BasicReadline H :=
  (.ok (), r)

/-- `basic_readline::Readline::add_history_entry`: `Ok(())`, state
untouched. -/
def BasicReadline.add_history_entry {H : Type} (r : BasicReadline H)
    (_entry : String) : Except OtherError Unit × BasicReadline H :=
  (.ok (), r)

deriving instance DecidableEq for Except

/-- Outcome of one Basic Backend `readline` call: the stream events it
performed in order, the classified result, and the rest of the stdin
stream. -/
structure BasicReadOutcome where
  events : List StdStreamEvent
  result : ReadlineResult
  stdinRest : List (Except IOError String)
deriving DecidableEq

/-- `basic_readline::Readline::readline` (source lines 44-60).  The
environment is explicit: `flushErr` is the outcome of `io::stdout().flush()`
and `stdin` is the stream of results `io::stdin().lock().lines()` yields,
consumed one `next()` at a time.  The code prints the prompt, flushes
(returning `IO(e)` on flush failure), then classifies the next line:
`Some(Ok(line))` is `Line`, `None` is `EOF`, and `Some(Err(e))` maps
`Interrupted` to `Interrupt`, `InvalidData` to `EncodingError`, all other
kinds to `IO(e)`. -/
def basicReadline (prompt : String) (flushErr : Option IOError)
    (stdin : List (Except IOError String)) : BasicReadOutcome :=
  match flushErr with
  | some e =>
    { events := [.writeStdout prompt, .flushStdout]
      result := .ioErr e
      stdinRest := stdin }
  | none =>
    match stdin with
    | [] =>
      { events := [.writeStdout prompt, .flushStdout, .readStdin]
        result := .eof
        stdinRest := [] }
    | .ok l :: rest =>
      { events := [.writeStdout prompt, .flushStdout, .readStdin]
        result := .line l
        stdinRest := rest }
    | .error e :: rest =>
      { events := [.writeStdout prompt, .flushStdout, .readStdin]
        result :=
          match e.kind with
          | .interrupted => .interrupt
          | .invalidData => .encodingError
          | _ => .ioErr e
        stdinRest := rest }

/-- Method form of `readline` on the Basic Backend: the backend state is
carried through unchanged (the source method takes `&mut self` but never
touches `self`). -/
def BasicReadline.readline {H : Type} (r : BasicReadline H) (prompt : String)
    (flushErr : Option IOError) (stdin : List (Except IOError String)) :
    BasicReadOutcome × BasicReadline H :=
  (basicReadline prompt flushErr stdin, r)

/-- A history operation invoked through the backend interface. -/
inductive HistoryOp where
  | load (path : List String)
  | save (path : List String)
  | add (entry : String)
deriving DecidableEq

/-- Dispatch one history operation on the Basic Backend. -/
def basicHistOp {H : Type} (r : BasicReadline H) (op : HistoryOp) :
    Except OtherError Unit × BasicReadline H :=
  match op with
  | .load p => r.load_history p
  | .save p => r.save_history p
  | .add e => r.add_history_entry e

/-- Run a sequence of history operations on the Basic Backend, keeping the
final state. -/
def runBasicHistOps {H : Type} (r : BasicReadline H) :
    List HistoryOp → BasicReadline H
  | [] => r
  | op :: ops => runBasicHistOps (basicHistOp r op).2 ops

/-! ## Filesystem model

Paths are component lists; the filesystem is a set of directories plus an
association of file paths to file contents.  It is an idealized model of
the OS: directory creation and file writes into an existing directory do
not fail spuriously (no permission errors). -/

/-- A filesystem state: existing directories and files with contents
(for history files, the ordered list of entries). -/
structure Fs where
  dirs : List (List String)
  files : List (List String × List String)
deriving DecidableEq

/-- `Path::parent`: `None` for an empty path, otherwise the path with the
last component dropped. -/
def parentPath (p : List String) : Option (List String) :=
  if p.isEmpty then none else some p.dropLast

/-- A directory exists if it is the root or was created. -/
def Fs.dirExists (fs : Fs) (d : List String) : Bool :=
  d.isEmpty || fs.dirs.contains d

/-- `Path::exists`: the path is an existing directory or an existing
file. -/
def Fs.pathExists (fs : Fs) (p : List String) : Bool :=
  fs.dirExists p || (fs.files.lookup p).isSome

/-- `std::fs::create_dir_all`: creates the directory and every missing
ancestor. -/
def Fs.create_dir_all (fs : Fs) (d : List String) : Fs :=
  { fs with dirs := ((List.range (d.length + 1)).map fun n => d.take n) ++ fs.dirs }

/-- Read a file's contents, `none` if absent. -/
def Fs.readFile (fs : Fs) (p : List String) : Option (List String) :=
  fs.files.lookup p

/-- Write a file (creating or replacing it). -/
def Fs.writeFile (fs : Fs) (p : List String) (content : List String) : Fs :=
  { fs with files := (p, content) :: fs.files }

/-! ## Interactive Backend (`rustyline_readline`) -/

/-- `rustyline::CompletionType`. -/
inductive CompletionType where
  | circular
  | list
deriving DecidableEq

/-- The editor configuration fields set by `rustyline_readline::Readline::new`. -/
structure Config where
  completionType : CompletionType
  tabStop : Nat
  bracketedPaste : Bool
deriving DecidableEq

/-- `rustyline::Config::builder()`: starts from the crate defaults
(circular completion, tab stop 4, bracketed paste enabled). -/
def Config.builder : Config :=
  { completionType := .circular, tabStop := 4, bracketedPaste := true }

/-- Builder method `completion_type`. -/
def Config.completion_type (c : Config) (v : CompletionType) : Config :=
  { c with completionType := v }

/-- Builder method `tab_stop`. -/
def Config.tab_stop (c : Config) (n : Nat) : Config :=
  { c with tabStop := n }

/-- Builder method `bracketed_paste`. -/
def Config.bracketed_paste (c : Config) (b : Bool) : Config :=
  { c with bracketedPaste := b }

/-- Builder method `build`. -/
def Config.build (c : Config) : Config := c

/-- The external `rustyline::Editor`: its configuration, optional helper,
and in-memory history (ordered, most recent last). -/
structure RustyEditor (H : Type) where
  config : Config
  helper : Option H
  history : List String

/-- `rustyline::Editor::with_config`: a fresh editor with the given
configuration, no helper, empty history. -/
def RustyEditor.with_config {H : Type} (cfg : Config) : RustyEditor H :=
  { config := cfg, helper := none, history := [] }

/-- `rustyline::Editor::set_helper`. -/
def RustyEditor.set_helper {H : Type} (ed : RustyEditor H) (h : Option H) :
    RustyEditor H :=
  { ed with helper := h }

/-- Modelled from the spec: the external editor's `add_history_entry`
appends the entry to the in-memory history (insertion order significant,
most recent last). -/
def RustyEditor.addEntry {H : Type} (ed : RustyEditor H) (entry : String) :
    RustyEditor H :=
  { ed with history := ed.history ++ [entry] }

/-- Modelled from the spec: the external editor's `save_history` persists
the in-memory history to the path, creating the file if absent; writing
into a missing parent directory fails with an I/O error. -/
def RustyEditor.saveHistory {H : Type} (ed : RustyEditor H) (fs : Fs)
    (p : List String) : Except ReadlineError Fs :=
  match parentPath p with
  | none => .error (.ioError ⟨.notFound, "no parent"⟩)
  | some d =>
    if fs.dirExists d then .ok (fs.writeFile p ed.history)
    else .error (.ioError ⟨.notFound, "missing directory"⟩)

/-- Modelled from the spec: the external editor's `load_history` reads the
persisted entries from the path and adds them to the in-memory history; a
missing or unreadable file is an error. -/
def RustyEditor.loadHistory {H : Type} (ed : RustyEditor H) (fs : Fs)
    (p : List String) : Except ReadlineError (RustyEditor H) :=
  match fs.readFile p with
  | some content => .ok { ed with history := ed.history ++ content }
  | none => .error (.ioError ⟨.notFound, "no such file"⟩)

/-- `rustyline_readline::Readline<H>`: wraps the editor. -/
structure RustyReadline (H : Type) where
  repl : RustyEditor H

/-- `rustyline_readline::Readline::new` (source lines 76-88): builds the
fixed configuration (list completion, tab stop 8, bracketed paste
disabled), constructs the editor with it and installs the helper.  Total:
no failure path. -/
def RustyReadline.new {H : Type} (helper : H) : RustyReadline H :=
  let repl : RustyEditor H :=
    RustyEditor.with_config
      ((((Config.builder.completion_type .list).tab_stop 8).bracketed_paste
        false).build)
  { repl := repl.set_helper (some helper) }

/-- `rustyline_readline::Readline::load_history`: delegates to the editor,
wrapping its error via `?` into the boxed error type. -/
def RustyReadline.load_history {H : Type} (r : RustyReadline H) (fs : Fs)
    (p : List String) : Except OtherError (RustyReadline H) :=
  match r.repl.loadHistory fs p with
  | .ok ed => .ok { repl := ed }
  | .error e => .error (.fromReadlineError e)

/-- `rustyline_readline::Readline::save_history` (source lines 95-103): if
the target path does not exist, creates all missing parent directories;
then delegates persistence to the editor, wrapping its error via `?`. -/
def RustyReadline.save_history {H : Type} (r : RustyReadline H) (fs : Fs)
    (p : List String) : Except OtherError Unit × Fs :=
  let fs1 :=
    if fs.pathExists p then fs
    else
      match parentPath p with
      | some d => fs.create_dir_all d
      | none => fs
  match r.repl.saveHistory fs1 p with
  | .ok fs2 => (.ok (), fs2)
  | .error e => (.error (.fromReadlineError e), fs1)

/-- `rustyline_readline::Readline::add_history_entry`: mutates the live
history, discards the editor's boolean, returns `Ok(())`. -/
def RustyReadline.add_history_entry {H : Type} (r : RustyReadline H)
    (entry : String) : Except OtherError Unit × RustyReadline H :=
  (.ok (), { repl := r.repl.addEntry entry })

/-- The platform the crate is compiled for; the source selects the
decoding-failure match arm with `#[cfg(unix)]` / `#[cfg(windows)]`. -/
inductive Platform where
  | unix
  | windows
deriving DecidableEq

/-- Is this error the platform's text-decoding failure?  Under unix the
enum variant is `Utf8Error`; under windows it is `Decode(_)` (on each
platform only its own variant can actually occur). -/
def platformDecodeError (p : Platform) : ReadlineError → Bool
  | .utf8Error => p == .unix
  | .decode _ => p == .windows
  | _ => false

/-- `rustyline_readline::Readline::readline` (source lines 110-123): maps
the editor's result to `ReadlineResult`.  `Ok(line)` is `Line`;
`Interrupted` is `Interrupt`; `Eof` is `EOF`; `Io(e)` is `IO(e)` with the
cause unmodified; the platform's decoding failure is `EncodingError`; every
remaining error is `Other(e.into())`, wrapped losslessly. -/
def RustyReadline.readline {H : Type} (_r : RustyReadline H) (p : Platform)
    (editorResult : Except ReadlineError String) : ReadlineResult :=
  match editorResult with
  | .ok l => .line l
  | .error .interrupted => .interrupt
  | .error .eof => .eof
  | .error (.ioError e) => .ioErr e
  | .error e =>
    if platformDecodeError p e then .encodingError
    else .other (.fromReadlineError e)

/-- Modelled from the spec: how the underlying editor delivers pasted
multi-line text.  With bracketed paste enabled the paste arrives as one
atomic block; with bracketed paste disabled it is delivered one line per
`readline` call. -/
def pasteDelivery (cfg : Config) (pasted : List String) : List String :=
  if cfg.bracketedPaste && decide (1 < pasted.length) then
    [String.intercalate "\n" pasted]
  else pasted

/-! ## Readline Facade -/

/-- The compilation target: `wasm32` selects the Basic Backend, any other
target the Interactive Backend (source lines 165-168). -/
inductive Target where
  | wasm32
  | native
deriving DecidableEq

/-- `readline_inner::Readline<H>` for a given target: exactly one backend
is compiled in. -/
def InnerReadline (t : Target) (H : Type) : Type :=
  match t with
  | .wasm32 => BasicReadline H
  | .native => RustyReadline H

/-- `pub struct Readline<H: Helper>(readline_inner::Readline<H>)`. -/
structure Readline (t : Target) (H : Type) where
  inner : InnerReadline t H

/-- View the facade's inner backend on a wasm32 build. -/
def Readline.basicInner {H : Type} (r : Readline .wasm32 H) : BasicReadline H :=
  r.inner

/-- View the facade's inner backend on a native build. -/
def Readline.rustyInner {H : Type} (r : Readline .native H) : RustyReadline H :=
  r.inner

/-- `Readline::new` (source lines 171-174): constructs the compiled-in
backend, passing the helper through.  Total: no failure path. -/
def Readline.new (t : Target) {H : Type} (helper : H) : Readline t H :=
  match t with
  | .wasm32 => ⟨BasicReadline.new helper⟩
  | .native => ⟨RustyReadline.new helper⟩

/-- `Readline::save_history`: delegates to the compiled-in backend.  The
filesystem is threaded explicitly; the Basic Backend never touches it. -/
def Readline.save_history {t : Target} {H : Type} (r : Readline t H)
    (fs : Fs) (p : List String) : Except OtherError Unit × Fs :=
  match t, r with
  | .wasm32, ⟨inner⟩ => ((BasicReadline.save_history inner p).1, fs)
  | .native, ⟨inner⟩ => RustyReadline.save_history inner fs p

/-- `Readline::add_history_entry`: delegates to the compiled-in backend. -/
def Readline.add_history_entry {t : Target} {H : Type} (r : Readline t H)
    (entry : String) : Except OtherError Unit × Readline t H :=
  match t, r with
  | .wasm32, ⟨inner⟩ =>
    let out := BasicReadline.add_history_entry inner entry
    (out.1, ⟨out.2⟩)
  | .native, ⟨inner⟩ =>
    let out := RustyReadline.add_history_entry inner entry
    (out.1, ⟨out.2⟩)

/-! ## Theorems -/

/-- Helper: every history operation on the Basic Backend leaves the state
unchanged. -/
theorem runBasicHistOps_id {H : Type} (r : BasicReadline H)
    (ops : List HistoryOp) : runBasicHistOps r ops = r := by
  induction ops with
  | nil => rfl
  | cons op ops ih =>
    cases op <;>
      simpa [runBasicHistOps, basicHistOp, BasicReadline.load_history,
        BasicReadline.save_history, BasicReadline.add_history_entry] using ih

/-- C1: the Basic Backend's `readline` classifies every read attempt as the
taxonomy dictates: at end-of-stream it returns `EOF` and never `Line`
(whatever the flush outcome); an `Interrupted` I/O error yields
`Interrupt`; an `InvalidData` (invalid-encoding) error yields
`EncodingError`, not `IO` and not a panic; any other I/O error yields
`IO` carrying that very error. -/
theorem basic_readline_error_classification
    (prompt : String) (stdin : List (Except IOError String)) :
    ((basicReadline prompt none []).result = .eof
      ∧ ∀ (flushErr : Option IOError) (s : String),
          (basicReadline prompt flushErr []).result ≠ .line s)
    ∧ ∀ (e : IOError) (rest : List (Except IOError String)),
        stdin = .error e :: rest →
          ((e.kind = .interrupted →
              (basicReadline prompt none stdin).result = .interrupt)
            ∧ (e.kind = .invalidData →
              (basicReadline prompt none stdin).result = .encodingError)
            ∧ (e.kind ≠ .interrupted → e.kind ≠ .invalidData →
              (basicReadline prompt none stdin).result = .ioErr e)) := by
  refine ⟨⟨rfl, ?_⟩, ?_⟩
  · intro flushErr s
    cases flushErr <;> simp [basicReadline]
  · intro e rest hst
    subst hst
    refine ⟨?_, ?_, ?_⟩
    · intro hk
      simp [basicReadline, hk]
    · intro hk
      simp [basicReadline, hk]
    · intro h1 h2
      match hk : e.kind with
      | .interrupted => exact absurd hk h1
      | .invalidData => exact absurd hk h2
      | .notFound => simp [basicReadline, hk]
      | .otherKind c => simp [basicReadline, hk]

/-- Witness for C1 at concrete inputs: a `notFound`-kind read error is
classified as `IO` carrying that error. -/
theorem basic_readline_error_classification_witness :
    (basicReadline "" none [.error ⟨.notFound, "boom"⟩]).result =
      .ioErr ⟨.notFound, "boom"⟩ :=
  ((basic_readline_error_classification ""
      [.error ⟨.notFound, "boom"⟩]).2 ⟨.notFound, "boom"⟩ [] rfl).2.2
    (by decide) (by decide)

/-- C4: for every prompt `p`, the Basic Backend's `readline` writes exactly
one stdout chunk, namely `p` itself with no appended newline, as the very
first event; the explicit flush is the second event; and every read from
stdin happens strictly after both. -/
theorem basic_readline_prompt_before_read
    (prompt : String) (flushErr : Option IOError)
    (stdin : List (Except IOError String)) :
    writesOf (basicReadline prompt flushErr stdin).events = [prompt]
    ∧ (basicReadline prompt flushErr stdin).events.head? =
        some (.writeStdout prompt)
    ∧ (basicReadline prompt flushErr stdin).events[1]? = some .flushStdout
    ∧ ∀ i, (basicReadline prompt flushErr stdin).events[i]? =
        some .readStdin → 2 ≤ i := by
  have hcases :
      (basicReadline prompt flushErr stdin).events =
          [.writeStdout prompt, .flushStdout]
        ∨ (basicReadline prompt flushErr stdin).events =
          [.writeStdout prompt, .flushStdout, .readStdin] := by
    match flushErr, stdin with
    | some e, _ => exact Or.inl rfl
    | none, [] => exact Or.inr rfl
    | none, .ok l :: rest => exact Or.inr rfl
    | none, .error e :: rest => exact Or.inr rfl
  rcases hcases with h | h <;> rw [h] <;>
    refine ⟨by simp [writesOf], rfl, rfl, ?_⟩ <;>
    intro i hi <;>
    match i with
    | 0 => simp at hi
    | 1 => simp at hi
    | n + 2 => omega

/-- Witness for C4 at concrete inputs: the read event sits at index 2,
after the prompt write and the flush. -/
theorem basic_readline_prompt_before_read_witness :
    writesOf (basicReadline "p" none [.ok "x"]).events = ["p"] ∧ 2 ≤ 2 :=
  ⟨(basic_readline_prompt_before_read "p" none [.ok "x"]).1,
    (basic_readline_prompt_before_read "p" none [.ok "x"]).2.2.2 2 rfl⟩

/-- C5: on the Basic Backend, `load_history`, `save_history` and
`add_history_entry` succeed for every input and leave the state unchanged,
so no sequence of history operations alters the outcome of any subsequent
`readline` call. -/
theorem basic_history_ops_are_noops {H : Type} (r : BasicReadline H)
    (ops : List HistoryOp) :
    runBasicHistOps r ops = r
    ∧ (∀ op, (basicHistOp r op).1 = .ok () ∧ (basicHistOp r op).2 = r)
    ∧ ∀ (prompt : String) (flushErr : Option IOError)
        (stdin : List (Except IOError String)),
        (runBasicHistOps r ops).readline prompt flushErr stdin =
          r.readline prompt flushErr stdin := by
  refine ⟨runBasicHistOps_id r ops, ?_, ?_⟩
  · intro op
    cases op <;> exact ⟨rfl, rfl⟩
  · intro prompt flushErr stdin
    rw [runBasicHistOps_id r ops]

/-- C3: the Interactive Backend's `readline` maps every editor error
deterministically to exactly one `ReadlineResult` variant: `Interrupted` to
`Interrupt`, `Eof` to `EOF`, a low-level I/O error to `IO` carrying the
original cause unmodified, the platform's text-decoding failure to
`EncodingError` (under unix `Utf8Error`, under windows `Decode`), and any
remaining error to `Other` wrapping the original cause without loss. -/
theorem rusty_readline_error_mapping {H : Type} (r : RustyReadline H)
    (p : Platform) :
    (r.readline p (.error .interrupted) = .interrupt)
    ∧ (r.readline p (.error .eof) = .eof)
    ∧ (∀ e : IOError, r.readline p (.error (.ioError e)) = .ioErr e)
    ∧ (r.readline .unix (.error .utf8Error) = .encodingError)
    ∧ (∀ c, r.readline .windows (.error (.decode c)) = .encodingError)
    ∧ (∀ e : ReadlineError, platformDecodeError p e = false →
        e ≠ .interrupted → e ≠ .eof → (∀ cause, e ≠ .ioError cause) →
        r.readline p (.error e) = .other (.fromReadlineError e)) := by
  refine ⟨rfl, rfl, fun e => rfl, rfl, fun c => rfl, ?_⟩
  intro e hdec hni hne hnio
  match e with
  | .interrupted => exact absurd rfl hni
  | .eof => exact absurd rfl hne
  | .ioError cause => exact absurd rfl (hnio cause)
  | .utf8Error => simp [RustyReadline.readline, hdec]
  | .decode c => simp [RustyReadline.readline, hdec]
  | .errno c => simp [RustyReadline.readline, platformDecodeError]
  | .windowResized => simp [RustyReadline.readline, platformDecodeError]

/-- Witness for C3 at concrete inputs: under unix, an `errno` error (not
matched by any specific arm) is wrapped as `Other` losslessly. -/
theorem rusty_readline_error_mapping_witness :
    (RustyReadline.new (0 : Nat)).readline .unix (.error (.errno 5)) =
      .other (.fromReadlineError (.errno 5)) :=
  (rusty_readline_error_mapping (RustyReadline.new 0) .unix).2.2.2.2.2
    (.errno 5) (by decide) (by simp) (by simp) (fun cause => by simp)

/-- C7: `Readline::new` never fails (it is total, returning an instance for
every helper value and target) and passes the helper through unchanged to
the compiled-in backend. -/
theorem readline_new_total_helper_preserved {H : Type} (h : H) :
    ((Readline.new .wasm32 h).basicInner.helper = h)
    ∧ ((Readline.new .native h).rustyInner.repl.helper = some h)
    ∧ ∀ t : Target, ∃ r : Readline t H, Readline.new t h = r := by
  exact ⟨rfl, rfl, fun t => ⟨Readline.new t h, rfl⟩⟩

/-- C9: for every helper value, the Interactive Backend's configuration is
fixed at construction: list completion, tab stop 8, bracketed paste
explicitly disabled — so pasted multi-line text is delivered one line per
`readline` call rather than as one atomic block. -/
theorem rusty_config_fixed {H : Type} (h : H) (pasted : List String) :
    ((RustyReadline.new h).repl.config.completionType = .list)
    ∧ ((RustyReadline.new h).repl.config.tabStop = 8)
    ∧ ((RustyReadline.new h).repl.config.bracketedPaste = false)
    ∧ pasteDelivery (RustyReadline.new h).repl.config pasted = pasted := by
  refine ⟨rfl, rfl, rfl, ?_⟩
  simp [pasteDelivery, RustyReadline.new, RustyEditor.with_config,
    RustyEditor.set_helper, Config.builder, Config.completion_type,
    Config.tab_stop, Config.bracketed_paste, Config.build]

/-- C10: `add_history_entry` succeeds for every entry on both compiled-in
backends: the error case of its result type is unreachable. -/
theorem add_history_entry_never_fails {H : Type} (t : Target)
    (r : Readline t H) (entry : String) :
    (r.add_history_entry entry).1 = .ok () := by
  cases t <;> cases r <;> rfl

/-- C8: `load_history` never panics.  On the Basic Backend it is a trivial
success for every path.  On the Interactive Backend every outcome is either
a success or an `Err` wrapping the underlying editor error; in particular a
missing file surfaces as a wrapped error, not a panic. -/
theorem load_history_never_panics {H : Type} (rb : BasicReadline H)
    (rr : RustyReadline H) (fs : Fs) (p : List String) :
    (∀ q : List String, rb.load_history q = (.ok (), rb))
    ∧ ((∃ ed, rr.repl.loadHistory fs p = .ok ed
          ∧ rr.load_history fs p = .ok ⟨ed⟩)
        ∨ (∃ e, rr.repl.loadHistory fs p = .error e
          ∧ rr.load_history fs p = .error (.fromReadlineError e)))
    ∧ (fs.readFile p = none →
        rr.load_history fs p =
          .error (.fromReadlineError (.ioError ⟨.notFound, "no such file"⟩))) := by
  refine ⟨fun q => rfl, ?_, ?_⟩
  · match hres : rr.repl.loadHistory fs p with
    | .ok ed =>
      exact Or.inl ⟨ed, rfl, by simp [RustyReadline.load_history, hres]⟩
    | .error e =>
      exact Or.inr ⟨e, rfl, by simp [RustyReadline.load_history, hres]⟩
  · intro hmiss
    simp [RustyReadline.load_history, RustyEditor.loadHistory, hmiss]

/-- Witness for C8 at concrete inputs: loading history from an empty
filesystem (missing file) yields a wrapped error. -/
theorem load_history_never_panics_witness :
    (RustyReadline.new (0 : Nat)).load_history ⟨[], []⟩ ["h"] =
      .error (.fromReadlineError (.ioError ⟨.notFound, "no such file"⟩)) :=
  (load_history_never_panics (BasicReadline.new 0) (RustyReadline.new 0)
    ⟨[], []⟩ ["h"]).2.2 rfl

/-- Helper: `create_dir_all` makes the requested directory exist. -/
theorem dirExists_create_dir_all (fs : Fs) (d : List String) :
    (fs.create_dir_all d).dirExists d = true := by
  have hmem : d ∈ (List.range (d.length + 1)).map fun n => d.take n :=
    List.mem_map.mpr ⟨d.length, List.self_mem_range_succ d.length,
      List.take_length d⟩
  simp [Fs.create_dir_all, Fs.dirExists, hmem]

/-- Helper: for a nonempty path, the parent is the path without its last
component. -/
theorem parentPath_of_ne_nil (p : List String) (hp : p ≠ []) :
    parentPath p = some p.dropLast := by
  cases p with
  | nil => exact absurd rfl hp
  | cons a as => rfl

/-- Helper: the Interactive Backend's `save_history` on a not-yet-existing
nonempty path creates the parent directories and persists the in-memory
history there. -/
theorem rusty_save_history_ok {H : Type} (r : RustyReadline H) (fs : Fs)
    (p : List String) (hp : p ≠ []) (hclean : fs.pathExists p = false) :
    r.save_history fs p =
      (.ok (), (fs.create_dir_all p.dropLast).writeFile p r.repl.history) := by
  simp [RustyReadline.save_history, hclean, parentPath_of_ne_nil p hp,
    RustyEditor.saveHistory, dirExists_create_dir_all]

/-- C2 counterexample: on a wasm32 build the facade's `save_history` is the
Basic Backend's no-op.  On a concrete path whose parent directory does not
exist it returns success but creates no directory and persists nothing:
the filesystem is returned unchanged, refuting the claim that the facade
creates all missing parent directories and persists for whichever backend
is compiled in. -/
theorem save_history_basic_counterexample :
    (Fs.dirExists ⟨[], []⟩ ["home", "user"] = false)
    ∧ ((Readline.new .wasm32 (0 : Nat)).save_history ⟨[], []⟩
        ["home", "user", "history.txt"]).1 = .ok ()
    ∧ ((Readline.new .wasm32 (0 : Nat)).save_history ⟨[], []⟩
        ["home", "user", "history.txt"]).2 = (⟨[], []⟩ : Fs)
    ∧ ((Readline.new .wasm32 (0 : Nat)).save_history ⟨[], []⟩
        ["home", "user", "history.txt"]).2.dirExists ["home", "user"] = false
    ∧ ((Readline.new .wasm32 (0 : Nat)).save_history ⟨[], []⟩
        ["home", "user", "history.txt"]).2.readFile
        ["home", "user", "history.txt"] = none :=
  ⟨rfl, rfl, rfl, rfl, rfl⟩

/-- C2 (amended): on a native build (Interactive Backend), `save_history`
on a nonempty, not-yet-existing path whose parent directory is missing
succeeds, creates all missing parent directories, and persists the
in-memory history to that path; on a wasm32 build (Basic Backend) it
succeeds trivially without touching the filesystem. -/
theorem save_history_parent_creation {H : Type} (h : H)
    (r : Readline .native H) (fs : Fs) (p : List String) (hp : p ≠ [])
    (hmiss : fs.dirExists p.dropLast = false)
    (hclean : fs.pathExists p = false) :
    ((r.save_history fs p).1 = .ok ())
    ∧ ((r.save_history fs p).2.dirExists p.dropLast = true)
    ∧ ((r.save_history fs p).2.readFile p = some r.rustyInner.repl.history)
    ∧ ((Readline.new .wasm32 h).save_history fs p = (.ok (), fs)) := by
  obtain ⟨inner⟩ := r
  have hface :
      (Readline.save_history (⟨inner⟩ : Readline .native H) fs p) =
        RustyReadline.save_history inner fs p := rfl
  have hsave := rusty_save_history_ok inner fs p hp hclean
  refine ⟨?_, ?_, ?_, rfl⟩
  · rw [hface, hsave]
  · rw [hface, hsave]
    exact dirExists_create_dir_all fs p.dropLast
  · rw [hface, hsave]
    simp [Fs.readFile, Fs.writeFile, Readline.rustyInner]

/-- Witness for C2's amended theorem at concrete inputs: saving to
`a/b/f` on an empty filesystem succeeds, and the file then holds the
(empty) history. -/
theorem save_history_parent_creation_witness :
    (((Readline.new .native (0 : Nat)).save_history ⟨[], []⟩
        ["a", "b", "f"]).1 = .ok ())
    ∧ (((Readline.new .native (0 : Nat)).save_history ⟨[], []⟩
        ["a", "b", "f"]).2.dirExists ["a", "b"] = true) :=
  ⟨(save_history_parent_creation 0 (Readline.new .native 0) ⟨[], []⟩
      ["a", "b", "f"] (by decide) rfl rfl).1,
    (save_history_parent_creation 0 (Readline.new .native 0) ⟨[], []⟩
      ["a", "b", "f"] (by decide) rfl rfl).2.1⟩

/-- Append a sequence of entries through `add_history_entry`. -/
def addEntries {H : Type} (r : RustyReadline H) (es : List String) :
    RustyReadline H :=
  es.foldl (fun acc e => (acc.add_history_entry e).2) r

/-- Helper: appending entries concatenates them, in order, onto the
in-memory history. -/
theorem addEntries_history {H : Type} (r : RustyReadline H)
    (es : List String) :
    (addEntries r es).repl.history = r.repl.history ++ es := by
  induction es generalizing r with
  | nil => simp [addEntries]
  | cons e es ih =>
    show (addEntries (r.add_history_entry e).2 es).repl.history = _
    rw [ih]
    simp [RustyReadline.add_history_entry, RustyEditor.addEntry]

/-- C6: Interactive Backend history round-trip.  For every sequence of
entries, adding them one by one to a fresh instance, saving to a nonempty
not-yet-existing path, then loading that path on a fresh instance
reproduces exactly the same entries in the same order. -/
theorem rusty_history_roundtrip {H : Type} (h h2 : H)
    (entries : List String) (fs : Fs) (p : List String) (hp : p ≠ [])
    (hclean : fs.pathExists p = false) :
    ∃ fs2,
      (addEntries (RustyReadline.new h) entries).save_history fs p =
        (.ok (), fs2)
      ∧ ∃ r2, (RustyReadline.new h2).load_history fs2 p = .ok r2
          ∧ r2.repl.history = entries := by
  have hhist : (addEntries (RustyReadline.new h) entries).repl.history =
      entries := by
    rw [addEntries_history]
    rfl
  have hsave :=
    rusty_save_history_ok (addEntries (RustyReadline.new h) entries) fs p hp
      hclean
  rw [hhist] at hsave
  refine ⟨(fs.create_dir_all p.dropLast).writeFile p entries, hsave, ?_⟩
  refine ⟨⟨{ (RustyReadline.new h2).repl with history := entries }⟩, ?_, rfl⟩
  simp [RustyReadline.load_history, RustyEditor.loadHistory, Fs.readFile,
    Fs.writeFile, RustyReadline.new, RustyEditor.with_config,
    RustyEditor.set_helper]

/-- Witness for C6 at concrete inputs: two entries round-trip through an
empty filesystem. -/
theorem rusty_history_roundtrip_witness :
    ∃ fs2,
      (addEntries (RustyReadline.new (0 : Nat)) ["a", "b"]).save_history
        ⟨[], []⟩ ["d", "hist"] = (.ok (), fs2)
      ∧ ∃ r2, (RustyReadline.new (0 : Nat)).load_history fs2 ["d", "hist"] =
            .ok r2
          ∧ r2.repl.history = ["a", "b"] :=
  rusty_history_roundtrip 0 0 ["a", "b"] ⟨[], []⟩ ["d", "hist"] (by decide)
    rfl

end RustPythonReadline
